import Mathlib

/-!
Shallow embedding of `src/pygameui/widgets/label.py` (class `Label`).

The Label widget stores text, font, image, border and color attributes, a
string-valued `state`, and a hover flag maintained by `HoverableMixin`.
Collaborator modules (`Widget`, `HoverableMixin`, `ThemeManager`) are not part
of the source tree; where their behaviour decides a claim they are modelled
from the spec and marked as such in a doc comment.

Python field names carry a leading underscore (`_text`, `_font`, ...); the Lean
embedding drops the underscore but keeps the rest of each name.
-/

namespace PygameUI

/-- RGB color value (embeds `pygame.Color`). -/
structure Color where
  r : Nat
  g : Nat
  b : Nat
  deriving DecidableEq

/-- Font handle: either the result of `pygame.font.SysFont(family, size)` or a
caller-supplied font object. -/
inductive Font where
  | sysFont (family : String) (size : Nat)
  | external (id : Nat)
  deriving DecidableEq

/-- Opaque image/icon handle with its intrinsic width and height
(`pygame.Surface`). -/
structure Image where
  id : Nat
  w : Int
  h : Int
  deriving DecidableEq

/-- Axis-aligned rectangle (`pygame.Rect`), as provided by the `Widget` base
through `self._rect`. -/
structure Rect where
  x : Int
  y : Int
  w : Int
  h : Int
  deriving DecidableEq

def Rect.centerx (r : Rect) : Int := r.x + r.w / 2

def Rect.centery (r : Rect) : Int := r.y + r.h / 2

/-- Global font entry of the theme registry:
`ThemeManager.theme["font"]["family"]` / `["size"]`. -/
structure FontTheme where
  family : String
  size : Nat
  deriving DecidableEq

/-- A per-visual-state style record of the theme registry, e.g.
`ThemeManager.theme["Label"]["normal"]`.  The constructor in the source reads
only `foreground` and `background` from these sub-records; the remaining fields
mirror the style defaults the spec describes the (type, state) lookup as
returning, so that source-side and spec-side resolution can be compared. -/
structure StateStyle where
  foreground : Color
  background : Color
  border_radius : Nat
  borderwidth : Nat
  bordercolor : Color
  deriving DecidableEq

/-- The `ThemeManager.theme["Label"]` record, with the keys the source reads:
`border_radius`, `borderwidth`, `bordercolor` directly under `"Label"`, and
the `"normal"` / `"hovered"` sub-records. -/
structure LabelTheme where
  border_radius : Nat
  borderwidth : Nat
  bordercolor : Color
  normal : StateStyle
  hovered : StateStyle
  deriving DecidableEq

/-- The theme registry `ThemeManager.theme`, restricted to the keys the Label
widget consults. -/
structure Theme where
  font : FontTheme
  label : LabelTheme
  deriving DecidableEq

/-- A Python value that can travel through the `configure` bridge's kwargs. -/
inductive Value where
  | str (s : String)
  | nat (n : Nat)
  | bool (b : Bool)
  | color (c : Color)
  | font (f : Font)
  | image (i : Option Image)
  deriving DecidableEq

/-- A Python kwargs mapping, as an association list with unique keys. -/
abbrev Kwargs := List (String × Value)

/-- `d.get(k, default=None)`: look the key up without removing it. -/
def dictGet (d : Kwargs) (k : String) : Option Value :=
  (d.find? (fun p => p.1 == k)).map Prod.snd

/-- `d.pop(k, default)`: the looked-up value together with the mapping with the
key removed. -/
def dictPop (d : Kwargs) (k : String) : Option Value × Kwargs :=
  (dictGet d k, d.filter (fun p => p.1 != k))

/-- The attribute record of one `Label` instance: the `_text`, `_wraplength`,
`_underline`, `_font`, `_image`, `_border_radius`, `_borderwidth`,
`_foreground`, `_background`, `_hovercolor`, `_hoverbackground`,
`_bordercolor`, `_state` fields of the source, plus the `hovered` flag owned by
`HoverableMixin` and the `_rect` geometry owned by the `Widget` base.
`font` is `Option Font` because Python would happily store `None` there; the
constructor's substitution is what rules it out. -/
structure LabelState where
  text : String
  wraplength : Bool
  underline : Bool
  font : Option Font
  image : Option Image
  border_radius : Nat
  borderwidth : Nat
  foreground : Color
  background : Color
  hovercolor : Color
  hoverbackground : Color
  bordercolor : Color
  state : String
  hovered : Bool
  rect : Rect
  deriving DecidableEq

/-- The keyword arguments `Label.__init__` pops from `**kwargs`; `none` means
the keyword was not supplied. -/
structure LabelKwargs where
  wraplength : Option Bool
  underline : Option Bool
  border_radius : Option Nat
  borderwidth : Option Nat
  hovercolor : Option Color
  hoverbackground : Option Color
  bordercolor : Option Color
  state : Option String
  deriving DecidableEq

/-- No keyword overrides supplied. -/
def noKwargs : LabelKwargs :=
  { wraplength := none
    underline := none
    border_radius := none
    borderwidth := none
    hovercolor := none
    hoverbackground := none
    bordercolor := none
    state := none }

/-- `Label.__init__` (source lines 69-141).  Every field is resolved exactly as
in the source: text and flags first, then the font (a `SysFont` built from the
theme's global font family/size substitutes for an omitted font), the image,
`border_radius` / `borderwidth` from `theme["Label"]`, `foreground` /
`background` from `theme["Label"]["normal"]`, hover colors from
`theme["Label"]["hovered"]`, `bordercolor` from `theme["Label"]`, and the
state string defaulting to `"normal"`.  The hover flag and the geometry rect
belong to `HoverableMixin.__init__` / `Widget.__init__`, which are not under
src/; modelled from the spec: the mixin starts with no pointer overlap and the
base widget records the given width and height. -/
def mkLabel (theme : Theme) (width height : Int) (text : String)
    (font : Option Font) (image : Option Image)
    (background : Option Color) (foreground : Option Color)
    (kw : LabelKwargs) : LabelState :=
  { text := text
    wraplength := kw.wraplength.getD true
    underline := kw.underline.getD false
    font := some (font.getD (Font.sysFont theme.font.family theme.font.size))
    image := image
    border_radius := kw.border_radius.getD theme.label.border_radius
    borderwidth := kw.borderwidth.getD theme.label.borderwidth
    foreground := foreground.getD theme.label.normal.foreground
    background := background.getD theme.label.normal.background
    hovercolor := kw.hovercolor.getD theme.label.hovered.foreground
    hoverbackground := kw.hoverbackground.getD theme.label.hovered.background
    bordercolor := kw.bordercolor.getD theme.label.bordercolor
    state := kw.state.getD "normal"
    hovered := false
    rect := { x := 0, y := 0, w := width, h := height } }

/-- `Label._set_state_` (lines 165-173): with no explicit state, derive the
state from the hover flag; an explicit state is stored unconditionally. -/
def set_state (l : LabelState) (state : Option String) : LabelState :=
  match state with
  | none => { l with state := if l.hovered then "hovered" else "normal" }
  | some s => { l with state := s }

/-- `Label._get_state_foreground_` (lines 175-181). -/
def get_state_foreground (l : LabelState) : Color :=
  if l.state = "hovered" then l.hovercolor else l.foreground

/-- `Label._get_state_background_` (lines 183-189). -/
def get_state_background (l : LabelState) : Color :=
  if l.state = "hovered" then l.hoverbackground else l.background

/-- `Label._perform_update_` (lines 288-294): ignores `delta` and recomputes
the state from the hover flag via `_set_state_()`. -/
def perform_update (l : LabelState) (_delta : Int) : LabelState :=
  set_state l none

/-- Modelled from the spec: the base `Widget`'s `_configure_set_` bridge (the
`Widget` module is not under src/).  Per the spec each layer of the configure
chain mutates only the attributes it owns; the base widget's own attributes are
outside this data model, so at the granularity of `LabelState` the base bridge
leaves the record unchanged. -/
def widget_configure_set (l : LabelState) (_kwargs : Kwargs) : LabelState :=
  l

/-- Modelled from the spec: the base `Widget`'s `_configure_get_` bridge (the
`Widget` module is not under src/).  It resolves only base-owned attribute
names, none of which are part of this data model; `none` marks an attribute
that was delegated past the Label layer. -/
def widget_configure_get (_l : LabelState) (_attribute : String) : Option Value :=
  none

/-- `Label._configure_set_` (lines 191-210).  `text`, `font`, `image`,
`state`, `underline`, `hovercolor`, `hoverbackground` and `bordercolor` are
taken out of the kwargs with `pop`; `borderwidth` and `border_radius` are read
with `get`, which leaves their keys in place; whatever remains is handed to
`super()._configure_set_`.  The result pairs the updated label with the kwargs
forwarded to the base bridge.  A value of the wrong shape for a field leaves
the field at its prior value (the well-typed slice of the Python semantics). -/
def configure_set (l : LabelState) (kwargs : Kwargs) : LabelState × Kwargs :=
  let p1 := dictPop kwargs "text"
  let p2 := dictPop p1.2 "font"
  let p3 := dictPop p2.2 "image"
  let p4 := dictPop p3.2 "state"
  let p5 := dictPop p4.2 "underline"
  let p6 := dictPop p5.2 "hovercolor"
  let p7 := dictPop p6.2 "hoverbackground"
  let p8 := dictPop p7.2 "bordercolor"
  let rest := p8.2
  ({ l with
      text := match p1.1 with | some (.str s) => s | _ => l.text
      font := match p2.1 with | some (.font f) => some f | _ => l.font
      image := match p3.1 with | some (.image i) => i | _ => l.image
      state := match p4.1 with | some (.str s) => s | _ => l.state
      underline := match p5.1 with | some (.bool b) => b | _ => l.underline
      hovercolor := match p6.1 with | some (.color c) => c | _ => l.hovercolor
      hoverbackground :=
        match p7.1 with | some (.color c) => c | _ => l.hoverbackground
      bordercolor := match p8.1 with | some (.color c) => c | _ => l.bordercolor
      borderwidth :=
        match dictGet rest "borderwidth" with
        | some (.nat n) => n
        | _ => l.borderwidth
      border_radius :=
        match dictGet rest "border_radius" with
        | some (.nat n) => n
        | _ => l.border_radius },
    rest)

/-- `Label._configure_get_` (lines 212-240): an if-chain over the attribute
name, falling through to `super()._configure_get_` for every name it does not
test. -/
def configure_get (l : LabelState) (attr : String) : Option Value :=
  if attr = "text" then some (.str l.text)
  else if attr = "font" then (l.font).map Value.font
  else if attr = "image" then some (.image l.image)
  else if attr = "state" then some (.str l.state)
  else if attr = "underline" then some (.bool l.underline)
  else if attr = "hovercolor" then some (.color l.hovercolor)
  else if attr = "hoverbackground" then some (.color l.hoverbackground)
  else if attr = "bordercolor" then some (.color l.bordercolor)
  else if attr = "border_radius" then some (.nat l.border_radius)
  else widget_configure_get l attr

/-- Modelled from the spec: `Widget.configure` (not under src/) routes a
mutation request through the `_configure_set_` chain: the Label layer first,
then the base layer on the kwargs the Label layer forwarded. -/
def configure_mutate (l : LabelState) (kwargs : Kwargs) : LabelState :=
  widget_configure_set (configure_set l kwargs).1 (configure_set l kwargs).2

/-- `Label.set_text` (lines 153-159): `self.configure(config=None, text=new_text)`. -/
def set_text (l : LabelState) (new_text : String) : LabelState :=
  configure_mutate l [("text", Value.str new_text)]

/-- `Label.get_text` (lines 145-151): `self.configure(config="text")`, which the
spec routes to the `_configure_get_` chain. -/
def get_text (l : LabelState) : Option Value :=
  configure_get l "text"

/-- One drawing-library call issued by `_perform_draw_`, in source order:
a filled rounded rectangle (`pygame.draw.rect` with no width argument), the
border rectangle (`pygame.draw.rect` with a stroke width), the text blit
(`font.render` + `blit`, antialias flag and centered rect recorded), and the
image blit (left edge and vertical center recorded). -/
inductive DrawCall where
  | fillRect (color : Color) (rect : Rect) (border_radius : Nat)
  | borderRect (color : Color) (rect : Rect) (width : Nat) (border_radius : Nat)
  | blitText (text : String) (font : Option Font) (antialias : Bool)
      (color : Color) (center : Int × Int)
  | blitImage (img : Image) (left : Int) (centery : Int)
  deriving DecidableEq

/-- Which kind of drawing call a `DrawCall` is. -/
def DrawCall.kind : DrawCall → String
  | .fillRect _ _ _ => "fill"
  | .borderRect _ _ _ _ => "border"
  | .blitText _ _ _ _ _ => "text"
  | .blitImage _ _ _ => "image"

/-- `Label._perform_draw_` (lines 242-278), as the sequence of drawing calls it
issues: background fill, border rectangle, text blit, and — only under
`if self._image:` — the image blit at `left = rect.left + 8`,
`centery = rect.centery`. -/
def perform_draw (l : LabelState) : List DrawCall :=
  let foreground := get_state_foreground l
  let background := get_state_background l
  [DrawCall.fillRect background l.rect l.border_radius,
   DrawCall.borderRect l.bordercolor l.rect l.borderwidth l.border_radius,
   DrawCall.blitText l.text l.font true foreground
     (l.rect.centerx, l.rect.centery)]
  ++ match l.image with
     | some img => [DrawCall.blitImage img (l.rect.x + 8) l.rect.centery]
     | none => []

/-- Modelled from the spec's words, for comparison with the source: the border
radius the spec says an unset override resolves to, namely the theme
registry's default under the "Label"/"normal" key. -/
def specNormalResolvedBorderRadius (t : Theme) : Nat :=
  t.label.normal.border_radius

/-- Modelled from the spec's words, for comparison with the source: the border
color the spec says an unset override resolves to, namely the theme registry's
default under the "Label"/"normal" key. -/
def specNormalResolvedBorderColor (t : Theme) : Color :=
  t.label.normal.bordercolor

/-- A concrete theme registry whose "Label"-level border defaults differ from
the ones nested under "Label"/"normal" and "Label"/"hovered". -/
def theme0 : Theme :=
  { font := { family := "Arial", size := 16 }
    label :=
      { border_radius := 7
        borderwidth := 2
        bordercolor := { r := 10, g := 20, b := 30 }
        normal :=
          { foreground := { r := 0, g := 0, b := 0 }
            background := { r := 255, g := 255, b := 255 }
            border_radius := 5
            borderwidth := 4
            bordercolor := { r := 1, g := 2, b := 3 } }
        hovered :=
          { foreground := { r := 9, g := 9, b := 9 }
            background := { r := 200, g := 200, b := 200 }
            border_radius := 6
            borderwidth := 5
            bordercolor := { r := 4, g := 5, b := 6 } } } }

/-- A Label constructed over `theme0` with every optional argument and keyword
left unset, as in `Label(master=screen, text="Label")`. -/
def label0 : LabelState :=
  mkLabel theme0 200 40 "Label" none none none none noKwargs

/-- C1: for every Label and every prior value of the state field — including a
state just forced through `_set_state_` with an explicit value — after
`_perform_update_` the state equals "hovered" exactly when the hover flag was
true at the moment of the call, and "normal" otherwise. -/
theorem update_state_from_hover (l : LabelState) (d : Int) (s : String) :
    (perform_update l d).state = (if l.hovered then "hovered" else "normal") ∧
    (perform_update (set_state l (some s)) d).state
      = (if l.hovered then "hovered" else "normal") :=
  ⟨rfl, rfl⟩

/-- C2: the foreground and background colors the draw routine uses are
selected purely from the current `state` string: the hover pair when state is
"hovered", the normal pair for any other state value — as recorded in the
background-fill call and the text-render call that `_perform_draw_` issues. -/
theorem draw_colors_from_state (l : LabelState) :
    get_state_foreground l
        = (if l.state = "hovered" then l.hovercolor else l.foreground) ∧
    get_state_background l
        = (if l.state = "hovered" then l.hoverbackground else l.background) ∧
    (perform_draw l)[0]?
        = some (DrawCall.fillRect
            (if l.state = "hovered" then l.hoverbackground else l.background)
            l.rect l.border_radius) ∧
    (perform_draw l)[2]?
        = some (DrawCall.blitText l.text l.font true
            (if l.state = "hovered" then l.hovercolor else l.foreground)
            (l.rect.centerx, l.rect.centery)) := by
  refine ⟨rfl, rfl, ?_, ?_⟩ <;>
    simp [perform_draw, get_state_foreground, get_state_background]

/-- C3: every draw call sequence is fill, then border, then text, and — only
when an image is set — an image blit last; with no image the same first three
calls occur in that order and nothing else. -/
theorem draw_call_order (l : LabelState) :
    (perform_draw l).map DrawCall.kind
      = ["fill", "border", "text"]
        ++ (if l.image.isSome then ["image"] else []) := by
  cases hi : l.image <;> simp [perform_draw, hi, DrawCall.kind]

/-- C4: for every string `s`, `set_text s` followed by `get_text` returns
exactly `s`, and the pair of calls changes no attribute of the Label other
than the text field. -/
theorem set_get_text_roundtrip (l : LabelState) (s : String) :
    get_text (set_text l s) = some (Value.str s) ∧
    set_text l s = { l with text := s } :=
  ⟨rfl, rfl⟩

/-- C5 counterexample: over a theme registry whose "Label"-level border
defaults differ from the "Label"/"normal" ones, a Label constructed with no
overrides resolves its border radius and border color from the "Label" key
directly, not from the "Label"/"normal" key the claim names. -/
theorem border_style_not_normal_keyed_cx :
    label0.border_radius ≠ specNormalResolvedBorderRadius theme0 ∧
    label0.bordercolor ≠ specNormalResolvedBorderColor theme0 ∧
    label0.border_radius = theme0.label.border_radius ∧
    label0.bordercolor = theme0.label.bordercolor := by
  decide

/-- C5 amended: with no overrides, foreground and background come from the
theme's "Label"/"normal" entry, the hover colors from "Label"/"hovered", while
border radius, border width and border color come from the "Label" entry
directly (no visual sub-state in their key). -/
theorem style_defaults_resolution (t : Theme) (w h : Int) (txt : String) :
    (mkLabel t w h txt none none none none noKwargs).foreground
        = t.label.normal.foreground ∧
    (mkLabel t w h txt none none none none noKwargs).background
        = t.label.normal.background ∧
    (mkLabel t w h txt none none none none noKwargs).hovercolor
        = t.label.hovered.foreground ∧
    (mkLabel t w h txt none none none none noKwargs).hoverbackground
        = t.label.hovered.background ∧
    (mkLabel t w h txt none none none none noKwargs).border_radius
        = t.label.border_radius ∧
    (mkLabel t w h txt none none none none noKwargs).borderwidth
        = t.label.borderwidth ∧
    (mkLabel t w h txt none none none none noKwargs).bordercolor
        = t.label.bordercolor :=
  ⟨rfl, rfl, rfl, rfl, rfl, rfl, rfl⟩

/-- C6 counterexample: a freshly constructed Label is in state "normal", yet a
single configure-set call — no update tick involved — moves the state to the
third value "disabled", so the state field neither stays within the two-value
set of "normal" and "hovered" nor changes only inside the per-tick update. -/
theorem state_configure_escape_cx :
    label0.state = "normal" ∧
    (configure_mutate label0 [("state", Value.str "disabled")]).state
      = "disabled" := by
  decide

/-- C6 amended: the configure bridge (and explicit `_set_state_`) can store an
arbitrary string in the state field at any time; what does hold is that every
per-tick update resets the state to "normal" or "hovered" according to the
hover flag, and that a constructor call without a state override starts in
"normal". -/
theorem state_after_update_binary (l : LabelState) (d : Int) (t : Theme)
    (w h : Int) (txt : String) (f : Option Font) (img : Option Image)
    (bg fg : Option Color) (kw : LabelKwargs) :
    ((perform_update l d).state = "normal" ∨
      (perform_update l d).state = "hovered") ∧
    (mkLabel t w h txt f img bg fg { kw with state := none }).state
      = "normal" := by
  constructor
  · by_cases hb : l.hovered = true
    · right
      simp [perform_update, set_state, hb]
    · left
      simp [perform_update, set_state, hb]
  · rfl

/-- C7 counterexample: the Label layer does not consume every name it owns —
a set with `borderwidth` updates the field yet still forwards the key to the
base bridge, the get bridge delegates `borderwidth` to the base instead of
returning the field, the wrap flag (`wraplength`) is answered by neither
bridge, and a wraplength set leaves the field untouched. -/
theorem configure_bridge_gaps_cx :
    (configure_set label0 [("borderwidth", Value.nat 9)]).2
      = [("borderwidth", Value.nat 9)] ∧
    (configure_set label0 [("borderwidth", Value.nat 9)]).1.borderwidth = 9 ∧
    configure_get label0 "borderwidth" = widget_configure_get label0 "borderwidth" ∧
    configure_get label0 "wraplength" = widget_configure_get label0 "wraplength" ∧
    (configure_set label0 [("wraplength", Value.bool false)]).1 = label0 := by
  decide

/-- C7 amended: the get bridge returns the Label's own field for text, font,
image, state, underline, hover colors, border color and border radius, and
delegates every other name — including borderwidth and wraplength — to the
base bridge; the set bridge consumes the popped names (text shown as the
representative), updates but still forwards borderwidth and border_radius, and
neither updates nor consumes wraplength. -/
theorem configure_bridge_ownership (l : LabelState) :
    (configure_get l "text" = some (Value.str l.text)) ∧
    (configure_get l "font" = l.font.map Value.font) ∧
    (configure_get l "image" = some (Value.image l.image)) ∧
    (configure_get l "state" = some (Value.str l.state)) ∧
    (configure_get l "underline" = some (Value.bool l.underline)) ∧
    (configure_get l "hovercolor" = some (Value.color l.hovercolor)) ∧
    (configure_get l "hoverbackground" = some (Value.color l.hoverbackground)) ∧
    (configure_get l "bordercolor" = some (Value.color l.bordercolor)) ∧
    (configure_get l "border_radius" = some (Value.nat l.border_radius)) ∧
    (configure_get l "borderwidth" = widget_configure_get l "borderwidth") ∧
    (configure_get l "wraplength" = widget_configure_get l "wraplength") ∧
    (∀ s : String, configure_set l [("text", Value.str s)]
        = ({ l with text := s }, [])) ∧
    (∀ n : Nat, configure_set l [("borderwidth", Value.nat n)]
        = ({ l with borderwidth := n }, [("borderwidth", Value.nat n)])) ∧
    (∀ n : Nat, configure_set l [("border_radius", Value.nat n)]
        = ({ l with border_radius := n }, [("border_radius", Value.nat n)])) ∧
    (∀ b : Bool, configure_set l [("wraplength", Value.bool b)]
        = (l, [("wraplength", Value.bool b)])) :=
  ⟨rfl, rfl, rfl, rfl, rfl, rfl, rfl, rfl, rfl, rfl, rfl,
   fun _ => rfl, fun _ => rfl, fun _ => rfl, fun _ => rfl⟩

/-- C8: on every draw — whatever the border width, zero included — the second
call issued is the border rectangle with stroke width `borderwidth`, color
`bordercolor`, and the same corner radius the background fill (the first call)
uses. -/
theorem border_draw_unconditional (l : LabelState) :
    (perform_draw l)[1]?
      = some (DrawCall.borderRect l.bordercolor l.rect l.borderwidth
          l.border_radius) ∧
    (perform_draw l)[0]?
      = some (DrawCall.fillRect (get_state_background l) l.rect
          l.border_radius) :=
  ⟨rfl, rfl⟩

/-- C9: two Labels differing only in the underline and/or wrap flags issue
exactly the same sequence of draw calls — the flags are never consulted by the
draw routine, so text is never wrapped, underlined or truncated on their
account. -/
theorem draw_ignores_underline_wrap (l : LabelState) (u w : Bool) :
    perform_draw { l with underline := u, wraplength := w } = perform_draw l :=
  rfl

/-- C10: the constructed font field is never null: the constructor stores a
font whatever the argument, and when the font argument is omitted (None) it
substitutes the system font built from the theme registry's global font family
and size. -/
theorem font_never_none (t : Theme) (w h : Int) (txt : String)
    (f : Option Font) (img : Option Image) (bg fg : Option Color)
    (kw : LabelKwargs) :
    (mkLabel t w h txt f img bg fg kw).font.isSome = true ∧
    (mkLabel t w h txt none img bg fg kw).font
      = some (Font.sysFont t.font.family t.font.size) :=
  ⟨rfl, rfl⟩

end PygameUI
